import Mathlib

/-!
Verification development for the ZKnight front-end proving worker
(src/prove.worker.js).

The worker has three parts, each shallowly embedded below:

* `buildCircuitInput` (lines 68-135): a pure normalizer turning a move
  history, a puzzle object and a tick count into the fixed-shape circuit
  input. JavaScript objects are modelled as Lean structures; fields read
  through the `||`-default idiom (`puzzle.grid_width || 11`,
  `puzzle.walls || []`, truthiness of `barrels[b].path`) are modelled as
  `Option` values, with `0` explicitly treated as falsy where the source
  applies `||` to a number. `String(n)` on an integer is `toString` on
  `Int`, which agrees with JavaScript decimal rendering for integers.
* `fetchZkeyBytes` (lines 35-48): the Cache-API-backed proving-key
  retrieval. The named cache opened by `caches.open` is modelled as an
  association list from URL to stored bytes; the network is an explicit
  function from URL to a response; the returned `FetchOutcome` records
  the cache after the call, the result (bytes or the thrown error
  message), and how many network fetches were performed.
* `self.onmessage` (lines 140-177): the orchestrator. The external
  proving routine is an explicit parameter returning `Except`; the
  handler returns the list of messages posted back to the main thread,
  so the exactly-one-response property is a statement about that list.
-/

namespace ZKnight

/-- A 2D integer coordinate, as produced by the game engine
(the `w.x` / `w.y` accesses in the source). -/
structure Coord where
  x : Int
  y : Int
  deriving Repr, DecidableEq

/-- A moving barrel. The source guards on `barrels[b].path` being truthy,
so the `path` field is an `Option`: `none` models an absent
(`undefined`/`null`) path. -/
structure Barrel where
  path : Option (List Coord)
  deriving Repr, DecidableEq

/-- The puzzle object received from the main thread. Fields the source
reads through a `||` default (`grid_width`, `grid_height`, `walls`,
`static_tnt`, `moving_barrels`) are `Option`s; the remaining fields are
accessed unconditionally (lines 121-130) and so are plain values. -/
structure Puzzle where
  grid_width : Option Int
  grid_height : Option Int
  knight_a_start : Coord
  knight_b_start : Coord
  goal_a : Coord
  goal_b : Coord
  walls : Option (List Coord)
  static_tnt : Option (List Coord)
  moving_barrels : Option (List Barrel)
  id : Int
  deriving Repr, DecidableEq

/-- The fixed-shape circuit input assembled at lines 118-132. Every
leaf is a decimal string; coordinate pairs are `String × String`. -/
structure CircuitInput where
  grid_width : String
  grid_height : String
  knight_a_start : String × String
  knight_b_start : String × String
  goal_a : String × String
  goal_b : String × String
  walls : List (String × String)
  static_tnt : List (String × String)
  barrel_paths : List (List (String × String))
  barrel_path_lengths : List String
  tick_count : String
  puzzle_id : String
  moves : List String
  deriving Repr, DecidableEq

/-- JavaScript `value || default` applied to an optional number:
`undefined`/`null` (here `none`) and `0` are falsy and yield the
default. Models lines 70-71. -/
def jsOr (v : Option Int) (d : Int) : Int :=
  match v with
  | none => d
  | some n => if n = 0 then d else n

/-- Per-coordinate encoding `[String(c.x), String(c.y)]` used for
walls, TNT and barrel path steps (lines 77, 86, 103). -/
def encCoord (c : Coord) : String × String :=
  (toString c.x, toString c.y)

/-- The `while (arr.length < n) arr.push(sentinel)` padding loops
(lines 79-81, 88-90, 109-111): append sentinels until the length reaches
`n`; a list already at or beyond `n` is left unchanged. -/
def padTo (l : List (String × String)) (sentinel : String × String) (n : Nat) :
    List (String × String) :=
  l ++ List.replicate (n - l.length) sentinel

/-- The wall list actually iterated: `puzzle.walls || []` (line 76). -/
def suppliedWalls (puzzle : Puzzle) : List Coord :=
  puzzle.walls.getD []

/-- The TNT list actually iterated: `puzzle.static_tnt || []` (line 85). -/
def suppliedTnt (puzzle : Puzzle) : List Coord :=
  puzzle.static_tnt.getD []

/-- The barrel list: `puzzle.moving_barrels || []` (line 93). -/
def suppliedBarrels (puzzle : Puzzle) : List Barrel :=
  puzzle.moving_barrels.getD []

/-- The guard `b < barrels.length && barrels[b].path` (line 99): the real
path at slot `b`, when the slot holds a barrel with a truthy path. -/
def barrelPathAt (barrels : List Barrel) (b : Nat) : Option (List Coord) :=
  match barrels.get? b with
  | some bar => bar.path
  | none => none

/-- The out-of-bounds sentinel `[String(grid_width), String(grid_height)]`
computed at lines 70-72, with the `|| 11` / `|| 7` defaults applied. -/
def oobOf (puzzle : Puzzle) : String × String :=
  (toString (jsOr puzzle.grid_width 11), toString (jsOr puzzle.grid_height 7))

/-- One iteration of the barrel loop (lines 97-113), length part:
`String(realPath.length)` for a real path, the dummy `"1"` otherwise. -/
def slotLen (puzzle : Puzzle) (b : Nat) : String :=
  match barrelPathAt (suppliedBarrels puzzle) b with
  | some realPath => toString realPath.length
  | none => "1"

/-- One iteration of the barrel loop (lines 97-113), path part: the real
coordinates in order (or nothing), padded with the sentinel to 16. -/
def slotPath (puzzle : Puzzle) (b : Nat) : List (String × String) :=
  match barrelPathAt (suppliedBarrels puzzle) b with
  | some realPath => padTo (realPath.map encCoord) (oobOf puzzle) 16
  | none => padTo [] (oobOf puzzle) 16

/-- The length of the path actually supplied at slot `b`
(0 when the slot holds no real barrel). -/
def suppliedPathLen (puzzle : Puzzle) (b : Nat) : Nat :=
  match barrelPathAt (suppliedBarrels puzzle) b with
  | some q => q.length
  | none => 0

/-- Embedding of `buildCircuitInput(moves, puzzle, tick_count)`
(lines 68-135). Walls and TNT are copied in encounter order then padded
with the sentinel; the barrel loop runs for exactly the slots
`b = 0, 1`; every numeric field is emitted as its decimal string. -/
def buildCircuitInput (moves : List Int) (puzzle : Puzzle) (tick_count : Int) :
    CircuitInput :=
  { grid_width := toString (jsOr puzzle.grid_width 11)
    grid_height := toString (jsOr puzzle.grid_height 7)
    knight_a_start := encCoord puzzle.knight_a_start
    knight_b_start := encCoord puzzle.knight_b_start
    goal_a := encCoord puzzle.goal_a
    goal_b := encCoord puzzle.goal_b
    walls := padTo ((suppliedWalls puzzle).map encCoord) (oobOf puzzle) 26
    static_tnt := padTo ((suppliedTnt puzzle).map encCoord) (oobOf puzzle) 8
    barrel_paths := [slotPath puzzle 0, slotPath puzzle 1]
    barrel_path_lengths := [slotLen puzzle 0, slotLen puzzle 1]
    tick_count := toString tick_count
    puzzle_id := toString puzzle.id
    moves := moves.map (fun m => toString m) }

/-- Constant `WASM_PATH` (line 23): locator of the circuit program
handed to the proving routine. -/
def WASM_PATH : String := "/zk/zknight.wasm"

/-- Constant `ZKEY_PATH` (line 24): the stable URL keying the
proving-key cache. -/
def ZKEY_PATH : String := "https://zknight-assets.wazowsky.id/zknight_final.zkey"

/-- Constant `ZKEY_CACHE_NAME` (line 27): the versioned name of the
persistent cache opened by `caches.open`. -/
def ZKEY_CACHE_NAME : String := "zknight-zkey-v1"

/-- A network response as observed by `fetchZkeyBytes`: the success flag
`res.ok`, the HTTP `res.status`, `res.statusText`, and the payload bytes
(the body read by `res.arrayBuffer()` and stored by `cache.put`). -/
structure NetResponse where
  ok : Bool
  status : Nat
  statusText : String
  body : List Nat
  deriving Repr, DecidableEq

/-- The contents of the named Cache-API cache: an association from URL
to the stored response bytes. -/
abbrev ZkeyCache := List (String × List Nat)

/-- Lookup `cache.match(url)` (line 37): the stored bytes for `url`,
if any. -/
def cacheMatch (cache : ZkeyCache) (url : String) : Option (List Nat) :=
  (cache.find? (fun e => e.fst = url)).map (fun e => e.snd)

/-- Store `cache.put(url, res.clone())` (line 45): record the response
body under `url`. -/
def cachePut (cache : ZkeyCache) (url : String) (body : List Nat) : ZkeyCache :=
  (url, body) :: cache

/-- The error message thrown at line 44:
`Failed to fetch zkey: <status> <statusText>`. -/
def zkeyFetchErrorMsg (status : Nat) (statusText : String) : String :=
  "Failed to fetch zkey: " ++ toString status ++ " " ++ statusText

instance exceptDecEq {ε α : Type} [DecidableEq ε] [DecidableEq α] :
    DecidableEq (Except ε α)
  | Except.error a, Except.error b =>
    if h : a = b then isTrue (by rw [h])
    else isFalse (by intro he; cases he; exact h rfl)
  | Except.error _, Except.ok _ => isFalse (by intro h; cases h)
  | Except.ok _, Except.error _ => isFalse (by intro h; cases h)
  | Except.ok a, Except.ok b =>
    if h : a = b then isTrue (by rw [h])
    else isFalse (by intro he; cases he; exact h rfl)

/-- Everything observable about one call to `fetchZkeyBytes`: the cache
contents after the call, the returned bytes or the thrown error message,
and the number of network fetches performed. -/
structure FetchOutcome where
  cache : ZkeyCache
  result : Except String (List Nat)
  fetchCount : Nat
  deriving Repr, DecidableEq

/-- Embedding of `fetchZkeyBytes()` (lines 35-48) over an explicit cache
state and an explicit network. Hit: return the cached bytes, no fetch.
Miss: fetch once; on a non-ok response throw before `cache.put` runs;
otherwise store the body and return the same body. -/
def fetchZkeyBytes (cache : ZkeyCache) (net : String → NetResponse) : FetchOutcome :=
  match cacheMatch cache ZKEY_PATH with
  | some bytes => ⟨cache, Except.ok bytes, 0⟩
  | none =>
    let res := net ZKEY_PATH
    if res.ok then
      ⟨cachePut cache ZKEY_PATH res.body, Except.ok res.body, 1⟩
    else
      ⟨cache, Except.error (zkeyFetchErrorMsg res.status res.statusText), 1⟩

/-- The request message destructured at line 141:
`{moves, puzzle, tick_count}`. -/
structure RequestMessage where
  moves : List Int
  puzzle : Puzzle
  tick_count : Int

/-- A message posted back to the main thread: either
`{proof, publicSignals}` (no error field) or `{error: string}` (no
proof or publicSignals fields). `π` and `σ` are the opaque proof and
public-signal payload types. -/
inductive WorkerResponse (π σ : Type) where
  | success (proof : π) (publicSignals : σ)
  | failure (error : String)
  deriving Repr, DecidableEq

/-- Fallback `error.message || 'Unknown error during proof generation'`
(line 174): an empty (falsy) message falls back to the fixed text. -/
def workerErrMsg (msg : String) : String :=
  if msg = "" then "Unknown error during proof generation" else msg

/-- Embedding of `self.onmessage` (lines 140-177). The try block
normalizes the input, obtains the key bytes, and runs the external
prover `prove` (a parameter, like the network); the catch clause
converts any failure into a single error message. The returned list is
the sequence of `postMessage` calls made while handling the request. -/
def onmessage {π σ : Type} (req : RequestMessage) (cache : ZkeyCache)
    (net : String → NetResponse)
    (prove : CircuitInput → String → List Nat → Except String (π × σ)) :
    List (WorkerResponse π σ) :=
  let input := buildCircuitInput req.moves req.puzzle req.tick_count
  match (fetchZkeyBytes cache net).result with
  | Except.error e => [WorkerResponse.failure (workerErrMsg e)]
  | Except.ok zkeyBytes =>
    match prove input WASM_PATH zkeyBytes with
    | Except.error e => [WorkerResponse.failure (workerErrMsg e)]
    | Except.ok (proof, publicSignals) => [WorkerResponse.success proof publicSignals]

/-- The end-to-end scenario-2 puzzle of the spec: exactly one wall
at (3, 4), grid 11 x 7, nothing else. -/
def pzScenario2 : Puzzle :=
  { grid_width := some 11
    grid_height := some 7
    knight_a_start := ⟨0, 0⟩
    knight_b_start := ⟨1, 0⟩
    goal_a := ⟨2, 2⟩
    goal_b := ⟨3, 3⟩
    walls := some [⟨3, 4⟩]
    static_tnt := none
    moving_barrels := none
    id := 5 }

/-- A puzzle supplying exactly one moving barrel with a two-step path. -/
def pzOneBarrel : Puzzle :=
  { grid_width := some 11
    grid_height := some 7
    knight_a_start := ⟨0, 0⟩
    knight_b_start := ⟨1, 0⟩
    goal_a := ⟨2, 2⟩
    goal_b := ⟨3, 3⟩
    walls := none
    static_tnt := none
    moving_barrels := some [⟨some [⟨1, 1⟩, ⟨2, 1⟩]⟩]
    id := 9 }

/-- A puzzle exceeding the wall capacity: 27 walls against the fixed 26
slots of the circuit. -/
def pzOverflow : Puzzle :=
  { grid_width := some 11
    grid_height := some 7
    knight_a_start := ⟨0, 0⟩
    knight_b_start := ⟨1, 0⟩
    goal_a := ⟨2, 2⟩
    goal_b := ⟨3, 3⟩
    walls := some (List.replicate 27 ⟨1, 1⟩)
    static_tnt := none
    moving_barrels := none
    id := 7 }

/-- The end-to-end scenario-1 puzzle of the spec: no walls, no TNT, no
barrels, and no explicit grid dimensions (so the defaults apply). -/
def pzEmpty : Puzzle :=
  { grid_width := none
    grid_height := none
    knight_a_start := ⟨0, 0⟩
    knight_b_start := ⟨1, 0⟩
    goal_a := ⟨2, 2⟩
    goal_b := ⟨3, 3⟩
    walls := none
    static_tnt := none
    moving_barrels := none
    id := 1 }

/-- A network that answers every URL with HTTP 500 and no body. -/
def net500 : String → NetResponse := fun _ => ⟨false, 500, "Internal Server Error", []⟩

/-- A network that answers every URL with HTTP 200 and body [1, 2, 3]. -/
def netOkDemo : String → NetResponse := fun _ => ⟨true, 200, "OK", [1, 2, 3]⟩

/-- A concrete request message over the empty puzzle. -/
def reqDemo : RequestMessage := ⟨[], pzEmpty, 0⟩

/-- A proving routine that always succeeds with fixed artifacts. -/
def proveDemo : CircuitInput → String → List Nat → Except String (String × String) :=
  fun _ _ _ => Except.ok ("proof-data", "signals-data")

theorem padTo_length (l : List (String × String)) (s : String × String) (n : Nat) :
    (padTo l s n).length = max n l.length := by
  simp [padTo]
  omega

theorem padTo_take (l : List (String × String)) (s : String × String) (n : Nat) :
    (padTo l s n).take l.length = l := by
  simp [padTo, List.take_left]

theorem padTo_drop (l : List (String × String)) (s : String × String) (n : Nat) :
    (padTo l s n).drop l.length = List.replicate (n - l.length) s := by
  simp [padTo, List.drop_left]

theorem padTo_nil (s : String × String) (n : Nat) :
    padTo [] s n = List.replicate n s := by
  simp [padTo]

theorem buildCircuitInput_walls (m : List Int) (p : Puzzle) (t : Int) :
    (buildCircuitInput m p t).walls
      = padTo ((suppliedWalls p).map encCoord) (oobOf p) 26 := rfl

theorem buildCircuitInput_static_tnt (m : List Int) (p : Puzzle) (t : Int) :
    (buildCircuitInput m p t).static_tnt
      = padTo ((suppliedTnt p).map encCoord) (oobOf p) 8 := rfl

theorem buildCircuitInput_barrel_paths (m : List Int) (p : Puzzle) (t : Int) :
    (buildCircuitInput m p t).barrel_paths = [slotPath p 0, slotPath p 1] := rfl

theorem buildCircuitInput_barrel_path_lengths (m : List Int) (p : Puzzle) (t : Int) :
    (buildCircuitInput m p t).barrel_path_lengths = [slotLen p 0, slotLen p 1] := rfl

theorem buildCircuitInput_grid_width (m : List Int) (p : Puzzle) (t : Int) :
    (buildCircuitInput m p t).grid_width = toString (jsOr p.grid_width 11) := rfl

theorem buildCircuitInput_grid_height (m : List Int) (p : Puzzle) (t : Int) :
    (buildCircuitInput m p t).grid_height = toString (jsOr p.grid_height 7) := rfl

theorem barrelPathAt_nil (b : Nat) : barrelPathAt [] b = none := by
  simp [barrelPathAt]

theorem slot_none_spec (p : Puzzle) (b : Nat)
    (hn : barrelPathAt (suppliedBarrels p) b = none) :
    slotLen p b = "1" ∧ slotPath p b = List.replicate 16 (oobOf p) := by
  constructor
  · simp [slotLen, hn]
  · simp [slotPath, hn, padTo_nil]

theorem slot_some_spec (p : Puzzle) (b : Nat) (q : List Coord)
    (hq : barrelPathAt (suppliedBarrels p) b = some q) :
    slotLen p b = toString q.length ∧
    slotPath p b = q.map encCoord ++ List.replicate (16 - q.length) (oobOf p) := by
  constructor
  · simp [slotLen, hq]
  · simp [slotPath, hq, padTo, List.length_map]

theorem slotPath_length (p : Puzzle) (b : Nat) :
    (slotPath p b).length = max 16 (suppliedPathLen p b) := by
  cases hq : barrelPathAt (suppliedBarrels p) b <;>
    simp [slotPath, suppliedPathLen, hq, padTo_length, padTo_nil]

/-- C1: for every puzzle supplying at most 26 walls, the walls field of
the circuit input has length exactly 26; its first entries are the
string-encoded input wall coordinates in encounter order and the
remaining slots hold the sentinel pair built from the resolved grid
dimensions. -/
theorem c1_walls_shape (moves : List Int) (puzzle : Puzzle) (tick_count : Int)
    (h : (suppliedWalls puzzle).length ≤ 26) :
    ((buildCircuitInput moves puzzle tick_count).walls).length = 26 ∧
    ((buildCircuitInput moves puzzle tick_count).walls).take (suppliedWalls puzzle).length
      = (suppliedWalls puzzle).map encCoord ∧
    ((buildCircuitInput moves puzzle tick_count).walls).drop (suppliedWalls puzzle).length
      = List.replicate (26 - (suppliedWalls puzzle).length) (oobOf puzzle) := by
  refine ⟨?_, ?_, ?_⟩
  · rw [buildCircuitInput_walls, padTo_length, List.length_map]
    omega
  · have := padTo_take ((suppliedWalls puzzle).map encCoord) (oobOf puzzle) 26
    rw [List.length_map] at this
    rw [buildCircuitInput_walls, this]
  · have := padTo_drop ((suppliedWalls puzzle).map encCoord) (oobOf puzzle) 26
    rw [List.length_map] at this
    rw [buildCircuitInput_walls, this]

/-- Witness for C1 at the scenario-2 puzzle (exactly one wall). -/
theorem c1_witness :
    (suppliedWalls pzScenario2).length ≤ 26 ∧
    (((buildCircuitInput [] pzScenario2 0).walls).length = 26 ∧
     ((buildCircuitInput [] pzScenario2 0).walls).take (suppliedWalls pzScenario2).length
       = (suppliedWalls pzScenario2).map encCoord ∧
     ((buildCircuitInput [] pzScenario2 0).walls).drop (suppliedWalls pzScenario2).length
       = List.replicate (26 - (suppliedWalls pzScenario2).length) (oobOf pzScenario2)) :=
  ⟨by decide, c1_walls_shape [] pzScenario2 0 (by decide)⟩

/-- C2: for every puzzle whose real barrel paths fit the 16-step
capacity, the barrel_paths and barrel_path_lengths fields each have
exactly 2 entries; a slot with no real barrel records length "1" and a
path of 16 sentinel pairs; a slot with a real barrel records the true
path length as a decimal string and the path coordinates in order
followed by sentinel padding, for a total of exactly 16 steps. -/
theorem c2_barrel_slots (moves : List Int) (puzzle : Puzzle) (tick_count : Int)
    (h : ∀ b : Nat, ∀ q : List Coord,
      barrelPathAt (suppliedBarrels puzzle) b = some q → q.length ≤ 16) :
    ((buildCircuitInput moves puzzle tick_count).barrel_paths).length = 2 ∧
    ((buildCircuitInput moves puzzle tick_count).barrel_path_lengths).length = 2 ∧
    ∀ b : Nat, b < 2 →
      (barrelPathAt (suppliedBarrels puzzle) b = none →
        ((buildCircuitInput moves puzzle tick_count).barrel_path_lengths).get? b
          = some "1" ∧
        ((buildCircuitInput moves puzzle tick_count).barrel_paths).get? b
          = some (List.replicate 16 (oobOf puzzle))) ∧
      (∀ q : List Coord, barrelPathAt (suppliedBarrels puzzle) b = some q →
        ((buildCircuitInput moves puzzle tick_count).barrel_path_lengths).get? b
          = some (toString q.length) ∧
        ((buildCircuitInput moves puzzle tick_count).barrel_paths).get? b
          = some (q.map encCoord ++ List.replicate (16 - q.length) (oobOf puzzle)) ∧
        (q.map encCoord ++ List.replicate (16 - q.length) (oobOf puzzle)).length = 16) := by
  refine ⟨rfl, rfl, ?_⟩
  intro b hb
  rw [buildCircuitInput_barrel_paths, buildCircuitInput_barrel_path_lengths]
  interval_cases b
  · refine ⟨fun hn => ?_, fun q hq => ?_⟩
    · have h0 := slot_none_spec puzzle 0 hn
      simp [h0.1, h0.2]
    · have h0 := slot_some_spec puzzle 0 q hq
      have hlen := h 0 q hq
      refine ⟨by simp [h0.1], by simp [h0.2], ?_⟩
      simp
      omega
  · refine ⟨fun hn => ?_, fun q hq => ?_⟩
    · have h1 := slot_none_spec puzzle 1 hn
      simp [h1.1, h1.2]
    · have h1 := slot_some_spec puzzle 1 q hq
      have hlen := h 1 q hq
      refine ⟨by simp [h1.1], by simp [h1.2], ?_⟩
      simp
      omega

theorem c2_hyp_pzOneBarrel :
    ∀ b : Nat, ∀ q : List Coord,
      barrelPathAt (suppliedBarrels pzOneBarrel) b = some q → q.length ≤ 16 := by
  intro b q hq
  match b with
  | 0 =>
    simp [barrelPathAt, suppliedBarrels, pzOneBarrel] at hq
    subst hq
    decide
  | Nat.succ n =>
    simp [barrelPathAt, suppliedBarrels, pzOneBarrel] at hq

/-- Witness for C2 at the one-barrel puzzle (slot 0 real, slot 1 dummy). -/
theorem c2_witness :
    (∀ b : Nat, ∀ q : List Coord,
      barrelPathAt (suppliedBarrels pzOneBarrel) b = some q → q.length ≤ 16) ∧
    (((buildCircuitInput [] pzOneBarrel 0).barrel_paths).length = 2 ∧
     ((buildCircuitInput [] pzOneBarrel 0).barrel_path_lengths).length = 2 ∧
     ∀ b : Nat, b < 2 →
       (barrelPathAt (suppliedBarrels pzOneBarrel) b = none →
         ((buildCircuitInput [] pzOneBarrel 0).barrel_path_lengths).get? b = some "1" ∧
         ((buildCircuitInput [] pzOneBarrel 0).barrel_paths).get? b
           = some (List.replicate 16 (oobOf pzOneBarrel))) ∧
       (∀ q : List Coord, barrelPathAt (suppliedBarrels pzOneBarrel) b = some q →
         ((buildCircuitInput [] pzOneBarrel 0).barrel_path_lengths).get? b
           = some (toString q.length) ∧
         ((buildCircuitInput [] pzOneBarrel 0).barrel_paths).get? b
           = some (q.map encCoord ++ List.replicate (16 - q.length) (oobOf pzOneBarrel)) ∧
         (q.map encCoord ++ List.replicate (16 - q.length) (oobOf pzOneBarrel)).length
           = 16)) :=
  ⟨c2_hyp_pzOneBarrel, c2_barrel_slots [] pzOneBarrel 0 c2_hyp_pzOneBarrel⟩

/-- C3 counterexample: a puzzle supplying 27 walls (one more than the
circuit capacity) produces a walls array of length 27, not 26 — the
padding loop never truncates, so the output shape is not invariant for
over-capacity inputs. -/
theorem c3_counterexample :
    ((buildCircuitInput [] pzOverflow 0).walls).length ≠ 26 := by decide

/-- C3 (amended): for every input puzzle, barrel_paths and
barrel_path_lengths always have exactly 2 entries, but the other shapes
are invariant only up to capacity: walls has length max 26 k for k
supplied walls, static_tnt has length max 8 j, and each barrel slot
path has length max 16 s for s supplied steps — entries beyond the
capacity are kept, not truncated. -/
theorem c3_amended_shapes (moves : List Int) (puzzle : Puzzle) (tick_count : Int) :
    ((buildCircuitInput moves puzzle tick_count).walls).length
      = max 26 (suppliedWalls puzzle).length ∧
    ((buildCircuitInput moves puzzle tick_count).static_tnt).length
      = max 8 (suppliedTnt puzzle).length ∧
    ((buildCircuitInput moves puzzle tick_count).barrel_paths).length = 2 ∧
    ((buildCircuitInput moves puzzle tick_count).barrel_path_lengths).length = 2 ∧
    (((buildCircuitInput moves puzzle tick_count).barrel_paths).getD 0 []).length
      = max 16 (suppliedPathLen puzzle 0) ∧
    (((buildCircuitInput moves puzzle tick_count).barrel_paths).getD 1 []).length
      = max 16 (suppliedPathLen puzzle 1) := by
  refine ⟨?_, ?_, rfl, rfl, ?_, ?_⟩
  · rw [buildCircuitInput_walls, padTo_length, List.length_map]
  · rw [buildCircuitInput_static_tnt, padTo_length, List.length_map]
  · rw [buildCircuitInput_barrel_paths]
    simpa using slotPath_length puzzle 0
  · rw [buildCircuitInput_barrel_paths]
    simpa using slotPath_length puzzle 1

/-- C4: for every request message handled by the worker, exactly one
response is posted; a failure from key retrieval or proving yields a
single error response (the failure constructor carries only a string),
and success yields a single response carrying the proof and public
signals. Totality of `onmessage` embeds the guarantee that no exception
escapes the handler for a destructurable request. -/
theorem c4_exactly_one_response {π σ : Type} (req : RequestMessage)
    (cache : ZkeyCache) (net : String → NetResponse)
    (prove : CircuitInput → String → List Nat → Except String (π × σ)) :
    (onmessage req cache net prove).length = 1 ∧
    (∀ e : String, (fetchZkeyBytes cache net).result = Except.error e →
      onmessage req cache net prove = [WorkerResponse.failure (workerErrMsg e)]) ∧
    (∀ zkeyBytes : List Nat,
      (fetchZkeyBytes cache net).result = Except.ok zkeyBytes →
      (∀ e : String,
        prove (buildCircuitInput req.moves req.puzzle req.tick_count) WASM_PATH zkeyBytes
          = Except.error e →
        onmessage req cache net prove = [WorkerResponse.failure (workerErrMsg e)]) ∧
      (∀ (pr : π) (sg : σ),
        prove (buildCircuitInput req.moves req.puzzle req.tick_count) WASM_PATH zkeyBytes
          = Except.ok (pr, sg) →
        onmessage req cache net prove = [WorkerResponse.success pr sg])) := by
  refine ⟨?_, ?_, ?_⟩
  · cases hf : (fetchZkeyBytes cache net).result with
    | error e => simp [onmessage, hf]
    | ok zkeyBytes =>
      cases hp : prove (buildCircuitInput req.moves req.puzzle req.tick_count)
          WASM_PATH zkeyBytes with
      | error e => simp [onmessage, hf, hp]
      | ok pr =>
        cases pr
        simp [onmessage, hf, hp]
  · intro e hf
    simp [onmessage, hf]
  · intro zkeyBytes hf
    refine ⟨?_, ?_⟩
    · intro e hp
      simp [onmessage, hf, hp]
    · intro pr sg hp
      simp [onmessage, hf, hp]

/-- Witness for C4: a concrete request over an empty cache, a working
network and an always-succeeding prover posts exactly the one success
message. -/
theorem c4_witness :
    onmessage reqDemo [] netOkDemo proveDemo
      = [WorkerResponse.success "proof-data" "signals-data"] :=
  ((c4_exactly_one_response reqDemo [] netOkDemo proveDemo).2.2 [1, 2, 3] rfl).2
    "proof-data" "signals-data" rfl

/-- C5: on a cache miss followed by a non-success network response,
fetchZkeyBytes fails with the fetch error message carrying the status
and status text, and the cache is left exactly as it was — no entry is
written for the URL. -/
theorem c5_fetch_error_no_cache_write (cache : ZkeyCache) (net : String → NetResponse)
    (hmiss : cacheMatch cache ZKEY_PATH = none)
    (hfail : (net ZKEY_PATH).ok = false) :
    (fetchZkeyBytes cache net).result
      = Except.error
          (zkeyFetchErrorMsg (net ZKEY_PATH).status (net ZKEY_PATH).statusText) ∧
    (fetchZkeyBytes cache net).cache = cache := by
  simp [fetchZkeyBytes, hmiss, hfail]

/-- Witness for C5: empty cache plus an HTTP-500 network. -/
theorem c5_witness :
    cacheMatch [] ZKEY_PATH = none ∧
    (net500 ZKEY_PATH).ok = false ∧
    ((fetchZkeyBytes [] net500).result
       = Except.error
           (zkeyFetchErrorMsg (net500 ZKEY_PATH).status (net500 ZKEY_PATH).statusText) ∧
     (fetchZkeyBytes [] net500).cache = []) :=
  ⟨rfl, rfl, c5_fetch_error_no_cache_write [] net500 rfl rfl⟩

/-- C6: a successful populating call performs exactly one fetch, returns
the retrieved payload, and stores that same payload in the cache; every
subsequent call for the same URL returns those byte-identical cached
bytes with zero network fetches, whatever the network would now
answer. -/
theorem c6_cache_populate_then_hit (cache : ZkeyCache) (net : String → NetResponse)
    (hmiss : cacheMatch cache ZKEY_PATH = none)
    (hok : (net ZKEY_PATH).ok = true) :
    (fetchZkeyBytes cache net).result = Except.ok (net ZKEY_PATH).body ∧
    (fetchZkeyBytes cache net).fetchCount = 1 ∧
    cacheMatch (fetchZkeyBytes cache net).cache ZKEY_PATH
      = some (net ZKEY_PATH).body ∧
    ∀ net2 : String → NetResponse,
      fetchZkeyBytes (fetchZkeyBytes cache net).cache net2
        = ⟨(fetchZkeyBytes cache net).cache, Except.ok (net ZKEY_PATH).body, 0⟩ := by
  have hfetch : fetchZkeyBytes cache net
      = ⟨cachePut cache ZKEY_PATH (net ZKEY_PATH).body,
         Except.ok (net ZKEY_PATH).body, 1⟩ := by
    simp [fetchZkeyBytes, hmiss, hok]
  have hmatch : cacheMatch (cachePut cache ZKEY_PATH (net ZKEY_PATH).body) ZKEY_PATH
      = some (net ZKEY_PATH).body := by
    simp [cacheMatch, cachePut]
  refine ⟨by rw [hfetch], by rw [hfetch], ?_, ?_⟩
  · rw [hfetch]
    exact hmatch
  · intro net2
    rw [hfetch]
    simp [fetchZkeyBytes, hmatch]

/-- Witness for C6: empty cache plus an HTTP-200 network. -/
theorem c6_witness :
    cacheMatch [] ZKEY_PATH = none ∧
    (netOkDemo ZKEY_PATH).ok = true ∧
    ((fetchZkeyBytes [] netOkDemo).result = Except.ok (netOkDemo ZKEY_PATH).body ∧
     (fetchZkeyBytes [] netOkDemo).fetchCount = 1 ∧
     cacheMatch (fetchZkeyBytes [] netOkDemo).cache ZKEY_PATH
       = some (netOkDemo ZKEY_PATH).body ∧
     ∀ net2 : String → NetResponse,
       fetchZkeyBytes (fetchZkeyBytes [] netOkDemo).cache net2
         = ⟨(fetchZkeyBytes [] netOkDemo).cache,
            Except.ok (netOkDemo ZKEY_PATH).body, 0⟩) :=
  ⟨rfl, rfl, c6_cache_populate_then_hit [] netOkDemo rfl rfl⟩

/-- C7: for every puzzle supplying at most 8 static TNT entries, the
static_tnt field has length exactly 8 with the string-encoded input
coordinates first and the sentinel filling the rest; and each barrel
slot holding a real path of at most 16 steps is emitted as those steps
in order padded with the sentinel to exactly 16. -/
theorem c7_tnt_and_path_shape (moves : List Int) (puzzle : Puzzle) (tick_count : Int)
    (h : (suppliedTnt puzzle).length ≤ 8) :
    ((buildCircuitInput moves puzzle tick_count).static_tnt).length = 8 ∧
    ((buildCircuitInput moves puzzle tick_count).static_tnt).take
        (suppliedTnt puzzle).length
      = (suppliedTnt puzzle).map encCoord ∧
    ((buildCircuitInput moves puzzle tick_count).static_tnt).drop
        (suppliedTnt puzzle).length
      = List.replicate (8 - (suppliedTnt puzzle).length) (oobOf puzzle) ∧
    ∀ b : Nat, b < 2 →
      ∀ q : List Coord, barrelPathAt (suppliedBarrels puzzle) b = some q →
        q.length ≤ 16 →
        ((buildCircuitInput moves puzzle tick_count).barrel_paths).get? b
          = some (q.map encCoord ++ List.replicate (16 - q.length) (oobOf puzzle)) ∧
        (q.map encCoord ++ List.replicate (16 - q.length) (oobOf puzzle)).length = 16 := by
  refine ⟨?_, ?_, ?_, ?_⟩
  · rw [buildCircuitInput_static_tnt, padTo_length, List.length_map]
    omega
  · have := padTo_take ((suppliedTnt puzzle).map encCoord) (oobOf puzzle) 8
    rw [List.length_map] at this
    rw [buildCircuitInput_static_tnt, this]
  · have := padTo_drop ((suppliedTnt puzzle).map encCoord) (oobOf puzzle) 8
    rw [List.length_map] at this
    rw [buildCircuitInput_static_tnt, this]
  · intro b hb q hq hlen
    rw [buildCircuitInput_barrel_paths]
    interval_cases b
    · have h0 := slot_some_spec puzzle 0 q hq
      refine ⟨by simp [h0.2], ?_⟩
      simp
      omega
    · have h1 := slot_some_spec puzzle 1 q hq
      refine ⟨by simp [h1.2], ?_⟩
      simp
      omega

/-- Witness for C7 at the one-barrel puzzle (no TNT, one real path). -/
theorem c7_witness :
    (suppliedTnt pzOneBarrel).length ≤ 8 ∧
    (((buildCircuitInput [] pzOneBarrel 0).static_tnt).length = 8 ∧
     ((buildCircuitInput [] pzOneBarrel 0).static_tnt).take
         (suppliedTnt pzOneBarrel).length
       = (suppliedTnt pzOneBarrel).map encCoord ∧
     ((buildCircuitInput [] pzOneBarrel 0).static_tnt).drop
         (suppliedTnt pzOneBarrel).length
       = List.replicate (8 - (suppliedTnt pzOneBarrel).length) (oobOf pzOneBarrel) ∧
     ∀ b : Nat, b < 2 →
       ∀ q : List Coord, barrelPathAt (suppliedBarrels pzOneBarrel) b = some q →
         q.length ≤ 16 →
         ((buildCircuitInput [] pzOneBarrel 0).barrel_paths).get? b
           = some (q.map encCoord ++ List.replicate (16 - q.length) (oobOf pzOneBarrel)) ∧
         (q.map encCoord ++ List.replicate (16 - q.length) (oobOf pzOneBarrel)).length
           = 16) :=
  ⟨by decide, c7_tnt_and_path_shape [] pzOneBarrel 0 (by decide)⟩

/-- C8: buildCircuitInput is deterministic — two evaluations on the same
moves, puzzle and tick count yield the same circuit input. Freedom from
side effects, including non-mutation of the arguments, is embedded in
its definition as a total function over immutable values. -/
theorem c8_pure_deterministic (moves : List Int) (puzzle : Puzzle) (tick_count : Int)
    (out₁ out₂ : CircuitInput)
    (h₁ : buildCircuitInput moves puzzle tick_count = out₁)
    (h₂ : buildCircuitInput moves puzzle tick_count = out₂) :
    out₁ = out₂ :=
  h₁.symm.trans h₂

/-- Witness for C8 at the scenario-2 puzzle. -/
theorem c8_witness :
    buildCircuitInput [] pzScenario2 0 = buildCircuitInput [] pzScenario2 0 ∧
    buildCircuitInput [] pzScenario2 0 = buildCircuitInput [] pzScenario2 0 :=
  ⟨rfl, c8_pure_deterministic [] pzScenario2 0 _ _ rfl rfl⟩

/-- C9: grid dimensions default to 11 and 7 when absent; for any puzzle
with no walls, no TNT, no barrels and grid 11 x 7 (explicit or
defaulted), the output is 26 sentinel walls, 8 sentinel TNT entries,
barrel path lengths ["1", "1"], and two all-sentinel 16-step paths,
with the sentinel ("11", "7"). -/
theorem c9_defaults_and_empty (moves : List Int) (puzzle : Puzzle) (tick_count : Int)
    (hgw : puzzle.grid_width = none ∨ puzzle.grid_width = some 11)
    (hgh : puzzle.grid_height = none ∨ puzzle.grid_height = some 7)
    (hw : suppliedWalls puzzle = [])
    (ht : suppliedTnt puzzle = [])
    (hb : suppliedBarrels puzzle = []) :
    (buildCircuitInput moves puzzle tick_count).grid_width = "11" ∧
    (buildCircuitInput moves puzzle tick_count).grid_height = "7" ∧
    (buildCircuitInput moves puzzle tick_count).walls
      = List.replicate 26 ("11", "7") ∧
    (buildCircuitInput moves puzzle tick_count).static_tnt
      = List.replicate 8 ("11", "7") ∧
    (buildCircuitInput moves puzzle tick_count).barrel_path_lengths = ["1", "1"] ∧
    (buildCircuitInput moves puzzle tick_count).barrel_paths
      = [List.replicate 16 ("11", "7"), List.replicate 16 ("11", "7")] := by
  have hgw11 : jsOr puzzle.grid_width 11 = 11 := by
    rcases hgw with h | h <;> simp [jsOr, h]
  have hgh7 : jsOr puzzle.grid_height 7 = 7 := by
    rcases hgh with h | h <;> simp [jsOr, h]
  have hoob : oobOf puzzle = ("11", "7") := by
    rw [oobOf, hgw11, hgh7]
    decide
  have hnone : ∀ b : Nat, barrelPathAt (suppliedBarrels puzzle) b = none := by
    intro b
    rw [hb, barrelPathAt_nil]
  refine ⟨?_, ?_, ?_, ?_, ?_, ?_⟩
  · rw [buildCircuitInput_grid_width, hgw11]
    decide
  · rw [buildCircuitInput_grid_height, hgh7]
    decide
  · rw [buildCircuitInput_walls, hw, hoob]
    simp [padTo_nil]
  · rw [buildCircuitInput_static_tnt, ht, hoob]
    simp [padTo_nil]
  · rw [buildCircuitInput_barrel_path_lengths,
      (slot_none_spec puzzle 0 (hnone 0)).1, (slot_none_spec puzzle 1 (hnone 1)).1]
  · rw [buildCircuitInput_barrel_paths,
      (slot_none_spec puzzle 0 (hnone 0)).2, (slot_none_spec puzzle 1 (hnone 1)).2, hoob]

/-- Witness for C9 at the empty puzzle with defaulted dimensions. -/
theorem c9_witness :
    (pzEmpty.grid_width = none ∨ pzEmpty.grid_width = some 11) ∧
    (pzEmpty.grid_height = none ∨ pzEmpty.grid_height = some 7) ∧
    suppliedWalls pzEmpty = [] ∧
    suppliedTnt pzEmpty = [] ∧
    suppliedBarrels pzEmpty = [] ∧
    ((buildCircuitInput [] pzEmpty 0).grid_width = "11" ∧
     (buildCircuitInput [] pzEmpty 0).grid_height = "7" ∧
     (buildCircuitInput [] pzEmpty 0).walls = List.replicate 26 ("11", "7") ∧
     (buildCircuitInput [] pzEmpty 0).static_tnt = List.replicate 8 ("11", "7") ∧
     (buildCircuitInput [] pzEmpty 0).barrel_path_lengths = ["1", "1"] ∧
     (buildCircuitInput [] pzEmpty 0).barrel_paths
       = [List.replicate 16 ("11", "7"), List.replicate 16 ("11", "7")]) :=
  ⟨Or.inl rfl, Or.inl rfl, rfl, rfl, rfl,
    c9_defaults_and_empty [] pzEmpty 0 (Or.inl rfl) (Or.inl rfl) rfl rfl rfl⟩

/-- C10: a grid dimension supplied as 0 is treated exactly like an
absent one — the whole circuit input is the same as with the field
missing, and the emitted grid_width and grid_height are the defaults
"11" and "7", not "0". -/
theorem c10_zero_dims_default (moves : List Int) (puzzle : Puzzle) (tick_count : Int) :
    buildCircuitInput moves { puzzle with grid_width := some 0 } tick_count
      = buildCircuitInput moves { puzzle with grid_width := none } tick_count ∧
    buildCircuitInput moves { puzzle with grid_height := some 0 } tick_count
      = buildCircuitInput moves { puzzle with grid_height := none } tick_count ∧
    (buildCircuitInput moves
      { puzzle with grid_width := some 0, grid_height := some 0 } tick_count).grid_width
      = "11" ∧
    (buildCircuitInput moves
      { puzzle with grid_width := some 0, grid_height := some 0 } tick_count).grid_height
      = "7" :=
  ⟨rfl, rfl, rfl, rfl⟩

end ZKnight
